import Mathlib

/-!
Verification of the ink-wrapper typed invocation/decoding layer
(src/ink-wrapper-types/src/lib.rs): call descriptors, the default
body of the optional upload operation, the event collection and its
per-contract demultiplexer, and the dispatch-error wrapper.
Machine bytes are modelled as natural numbers; byte strings as lists.
-/

namespace InkWrapper

/-- A 32-byte binary address identifying a deployed contract instance
(ink_primitives::AccountId). Only equality on it is used by this layer,
so it is modelled as a list of bytes. -/
abbrev AccountId := List Nat

/-- A scale::Error decode error: carries only a message. -/
structure ScaleError where
  msg : String
deriving DecidableEq, Repr

/-- Represents a call to a contract constructor (InstantiateCall in the
source). The PhantomData marker field is kept as the unused type
parameter T, exactly as in the source. -/
structure InstantiateCall (T : Type) where
  code_hash : List Nat
  data : List Nat
  salt : List Nat
deriving DecidableEq, Repr

/-- InstantiateCall::new - create a new instantiate call: the given code
hash and data, and an empty salt. -/
def InstantiateCall.new (T : Type) (code_hash data : List Nat) :
    InstantiateCall T :=
  { code_hash := code_hash, data := data, salt := [] }

/-- InstantiateCall::with_salt - set the salt to use for the
instantiation, leaving the other fields unchanged. -/
def InstantiateCall.with_salt {T : Type} (c : InstantiateCall T)
    (salt : List Nat) : InstantiateCall T :=
  { c with salt := salt }

/-- Represents a mutating contract call to be made (ExecCall). -/
structure ExecCall where
  account_id : AccountId
  data : List Nat
deriving DecidableEq, Repr

/-- ExecCall::new - create a new exec call from its two fields. -/
def ExecCall.new (account_id : AccountId) (data : List Nat) : ExecCall :=
  { account_id := account_id, data := data }

/-- Represents a read-only contract call to be made (ReadCall). The
PhantomData return-type marker is the unused type parameter T. -/
structure ReadCall (T : Type) where
  account_id : AccountId
  data : List Nat
deriving DecidableEq, Repr

/-- ReadCall::new - create a new read call from its two fields. -/
def ReadCall.new (T : Type) (account_id : AccountId) (data : List Nat) :
    ReadCall T :=
  { account_id := account_id, data := data }

/-- Outcome of running the body of an async trait method that may panic:
a returned success, a returned error, or a Rust panic with its message.
A panic is an unwinding crash, distinct from returning a Result error. -/
inductive UploadOutcome (TxInfo E : Type) where
  | ok : TxInfo → UploadOutcome TxInfo E
  | err : E → UploadOutcome TxInfo E
  | panicked : String → UploadOutcome TxInfo E
deriving DecidableEq

namespace SignedConnection

/-- The default body of SignedConnection::upload in the source is a bare
call of the Rust macro that panics with the message "not implemented";
it never touches the wasm or the code hash and never builds a Result. -/
def default_upload (TxInfo E : Type) (_wasm _code_hash : List Nat) :
    UploadOutcome TxInfo E :=
  UploadOutcome.panicked "not implemented"

end SignedConnection

/-- Represents a raw event emitted by a contract (ContractEvent). -/
structure ContractEvent where
  account_id : AccountId
  data : List Nat
deriving DecidableEq, Repr

/-- Represents a collection of events emitted by contracts in a single
transaction (ContractEvents). -/
structure ContractEvents where
  events : List ContractEvent
deriving DecidableEq, Repr

/-- Dictionary for the EventSource trait: a per-contract wrapper value
provides its derived AccountId (the Into conversion) and the decoder of
its associated Event type (the scale::Decode bound). -/
structure EventSource (Event : Type) where
  into_account_id : AccountId
  decode : List Nat → Except ScaleError Event

/-- ContractEvents::for_contract - filter the collection to the events
whose account id equals the contract's derived account id, then map the
contract's event decoder over each matching event's payload. -/
def ContractEvents.for_contract {Event : Type} (self : ContractEvents)
    (contract : EventSource Event) : List (Except ScaleError Event) :=
  (self.events.filter
      (fun e => decide (e.account_id = contract.into_account_id))).map
    (fun e => contract.decode e.data)

/-- State-explicit form of for_contract: the Rust method takes the
collection by shared borrow, so running it yields the result list
together with the receiver it leaves behind, which a shared borrow
cannot mutate. -/
def ContractEvents.for_contract_run {Event : Type} (self : ContractEvents)
    (contract : EventSource Event) :
    List (Except ScaleError Event) × ContractEvents :=
  (self.for_contract contract, self)

/-- Specification-side demultiplexer, written from the spec's words:
walk the collection in original emission order and, for each event whose
account id equals the target contract's derived id, emit the decode
outcome of that event's payload; events with a non-matching account id
contribute nothing. -/
def forContractSpec {Event : Type} (acc : AccountId)
    (dec : List Nat → Except ScaleError Event) :
    List ContractEvent → List (Except ScaleError Event)
  | [] => []
  | e :: rest =>
    if e.account_id = acc then dec e.data :: forContractSpec acc dec rest
    else forContractSpec acc dec rest

/-- ink_primitives::LangError, the callee-side routing-failure code
wrapped by this layer. Its single variant CouldNotReadInput carries the
SCALE variant index 1. -/
inductive LangError where
  | couldNotReadInput
deriving DecidableEq, Repr

/-- The Rust Debug rendering of a LangError value. -/
def LangError.debugStr : LangError → String
  | .couldNotReadInput => "CouldNotReadInput"

/-- SCALE encoding of LangError (the derived scale::Encode): one byte
holding the variant index. -/
def LangError.encode : LangError → List Nat
  | .couldNotReadInput => [1]

/-- SCALE decoding of LangError (the derived scale::Decode): reads one
variant-index byte and leaves the rest of the input unread. -/
def LangError.decode : List Nat → Except ScaleError (LangError × List Nat)
  | 1 :: rest => Except.ok (LangError.couldNotReadInput, rest)
  | _ => Except.error ⟨"Could not decode LangError"⟩

/-- A wrapper around ink_primitives::LangError that implements the
standard error interface (InkLangError). The derived PartialEq/Eq
compare the wrapped code. -/
structure InkLangError where
  val : LangError
deriving DecidableEq, Repr

/-- The From conversion: construction stores the wrapped code as-is. -/
def InkLangError.ofLangError (e : LangError) : InkLangError := ⟨e⟩

/-- The Display rendering of InkLangError: the literal name of the
wrapper around the Debug rendering of the wrapped code. -/
def InkLangError.display (e : InkLangError) : String :=
  "InkLangError(" ++ e.val.debugStr ++ ")"

/-- SCALE encoding of InkLangError (derived): the encoding of the single
wrapped field. -/
def InkLangError.encode (e : InkLangError) : List Nat :=
  e.val.encode

/-- SCALE decoding of InkLangError (derived): decode the single wrapped
field and rewrap it. -/
def InkLangError.decode (bytes : List Nat) :
    Except ScaleError (InkLangError × List Nat) :=
  match LangError.decode bytes with
  | Except.ok (v, rest) => Except.ok (⟨v⟩, rest)
  | Except.error err => Except.error err

/-- Concrete event source used to instantiate theorems with hypotheses:
account id [1], decoder that succeeds on a non-empty payload with its
first byte and fails on an empty payload. -/
def sampleSource : EventSource Nat :=
  { into_account_id := [1]
    decode := fun d =>
      match d with
      | [] => Except.error ⟨"empty"⟩
      | b :: _ => Except.ok b }

/-- Splitting lemma: the demultiplexer distributes over appending of the
underlying event lists. -/
theorem for_contract_append {Event : Type} (C : EventSource Event)
    (l1 l2 : List ContractEvent) :
    (ContractEvents.mk (l1 ++ l2)).for_contract C =
      (ContractEvents.mk l1).for_contract C ++
        (ContractEvents.mk l2).for_contract C := by
  simp [ContractEvents.for_contract, List.filter_append, List.map_append]

/-- Claim C1: for every event collection E and contract source C,
for_contract returns exactly the decode outcomes of the events of E
whose account id equals C's derived account id, in the original
emission order; non-matching events contribute nothing. Stated as a
refinement against the spec-side recursive demultiplexer. -/
theorem for_contract_eq_spec {Event : Type} (E : ContractEvents)
    (C : EventSource Event) :
    E.for_contract C = forContractSpec C.into_account_id C.decode E.events := by
  obtain ⟨l⟩ := E
  induction l with
  | nil => rfl
  | cons e rest ih =>
    by_cases h : e.account_id = C.into_account_id
    · simp [ContractEvents.for_contract, forContractSpec,
        List.filter_cons, h] at ih ⊢
      exact ih
    · simp [ContractEvents.for_contract, forContractSpec,
        List.filter_cons, h] at ih ⊢
      exact ih

/-- Splitting lemma: the demultiplexer on a cons peels off one outcome
when the head event's account id matches and nothing otherwise. -/
theorem for_contract_cons {Event : Type} (C : EventSource Event)
    (e : ContractEvent) (l : List ContractEvent) :
    (ContractEvents.mk (e :: l)).for_contract C =
      (if e.account_id = C.into_account_id then [C.decode e.data] else []) ++
        (ContractEvents.mk l).for_contract C := by
  by_cases h : e.account_id = C.into_account_id <;>
    simp [ContractEvents.for_contract, List.filter_cons, h]

/-- Claim C2: for_contract produces one per-event decode outcome for each
matching event, never an all-or-nothing result: with the same
surroundings l1 and l2 and two payloads e and e' for the same account,
both runs decompose into the same prefix outcomes, one middle outcome
depending only on the local payload, and the same suffix outcomes - so a
decode failure at one position leaves every other position's outcome
unchanged relative to the run where that event decodes successfully. -/
theorem for_contract_pointwise {Event : Type} (C : EventSource Event)
    (l1 l2 : List ContractEvent) (e e' : ContractEvent)
    (h : e.account_id = e'.account_id) :
    (ContractEvents.mk (l1 ++ e :: l2)).for_contract C =
      (ContractEvents.mk l1).for_contract C ++
        (if e.account_id = C.into_account_id
          then [C.decode e.data] else []) ++
        (ContractEvents.mk l2).for_contract C ∧
    (ContractEvents.mk (l1 ++ e' :: l2)).for_contract C =
      (ContractEvents.mk l1).for_contract C ++
        (if e.account_id = C.into_account_id
          then [C.decode e'.data] else []) ++
        (ContractEvents.mk l2).for_contract C := by
  constructor
  · rw [for_contract_append, for_contract_cons, ← List.append_assoc]
  · rw [for_contract_append, for_contract_cons, ← List.append_assoc, h]

/-- Claim C2 witness: a concrete run with a failing payload (empty, at
the middle position) and a succeeding one, same account, identical
surrounding outcomes. -/
theorem for_contract_pointwise_witness :
    (ContractEvent.mk [1] []).account_id =
      (ContractEvent.mk [1] [7]).account_id ∧
    ((ContractEvents.mk ([ContractEvent.mk [1] [5]] ++
        ContractEvent.mk [1] [] :: [ContractEvent.mk [2] [6]])).for_contract
          sampleSource =
      (ContractEvents.mk [ContractEvent.mk [1] [5]]).for_contract
          sampleSource ++
        (if (ContractEvent.mk [1] []).account_id =
            sampleSource.into_account_id
          then [sampleSource.decode (ContractEvent.mk [1] []).data]
          else []) ++
        (ContractEvents.mk [ContractEvent.mk [2] [6]]).for_contract
          sampleSource ∧
     (ContractEvents.mk ([ContractEvent.mk [1] [5]] ++
        ContractEvent.mk [1] [7] :: [ContractEvent.mk [2] [6]])).for_contract
          sampleSource =
      (ContractEvents.mk [ContractEvent.mk [1] [5]]).for_contract
          sampleSource ++
        (if (ContractEvent.mk [1] []).account_id =
            sampleSource.into_account_id
          then [sampleSource.decode (ContractEvent.mk [1] [7]).data]
          else []) ++
        (ContractEvents.mk [ContractEvent.mk [2] [6]]).for_contract
          sampleSource) :=
  ⟨rfl, for_contract_pointwise sampleSource [ContractEvent.mk [1] [5]]
    [ContractEvent.mk [2] [6]] (ContractEvent.mk [1] [])
    (ContractEvent.mk [1] [7]) rfl⟩

/-- Claim C3 counterexample: at wasm [] and code hash [], the default
upload body panics with the not-implemented message; it does not return
an error result, so the claimed "an error result, not a crash" fails on
the code. -/
theorem default_upload_counterexample :
    SignedConnection.default_upload Nat Unit [] [] =
      UploadOutcome.panicked "not implemented" ∧
    SignedConnection.default_upload Nat Unit [] [] ≠ UploadOutcome.err () :=
  ⟨rfl, fun h => UploadOutcome.noConfusion h⟩

/-- Claim C3 amended: for every implementor that leaves upload
unimplemented, invoking upload on any wasm and code hash
deterministically panics with the not-implemented condition - a crash,
not a returned error or success result - without attempting any
transport work. -/
theorem default_upload_always_panics (TxInfo E : Type)
    (wasm code_hash : List Nat) :
    SignedConnection.default_upload TxInfo E wasm code_hash =
      UploadOutcome.panicked "not implemented" ∧
    (∀ tx : TxInfo,
      SignedConnection.default_upload TxInfo E wasm code_hash ≠
        UploadOutcome.ok tx) ∧
    (∀ e : E,
      SignedConnection.default_upload TxInfo E wasm code_hash ≠
        UploadOutcome.err e) :=
  ⟨rfl, fun _ h => UploadOutcome.noConfusion h,
    fun _ h => UploadOutcome.noConfusion h⟩

/-- Claim C4: Instantiate::new with with_salt yields code_hash h, data d
and salt s; Instantiate::new alone yields code_hash h, data d and the
empty salt. -/
theorem instantiate_new_fields (T : Type) (h d s : List Nat) :
    ((InstantiateCall.new T h d).with_salt s).code_hash = h ∧
    ((InstantiateCall.new T h d).with_salt s).data = d ∧
    ((InstantiateCall.new T h d).with_salt s).salt = s ∧
    (InstantiateCall.new T h d).code_hash = h ∧
    (InstantiateCall.new T h d).data = d ∧
    (InstantiateCall.new T h d).salt = [] :=
  ⟨rfl, rfl, rfl, rfl, rfl, rfl⟩

/-- Claim C5: Exec::new and Read::new store the given account id and the
given payload byte-for-byte, with no serialization or re-encoding. -/
theorem exec_read_new_fields (T : Type) (a : AccountId) (d : List Nat) :
    (ExecCall.new a d).account_id = a ∧
    (ExecCall.new a d).data = d ∧
    (ReadCall.new T a d).account_id = a ∧
    (ReadCall.new T a d).data = d :=
  ⟨rfl, rfl, rfl, rfl⟩

/-- Claim C6: the dispatch-error wrapper stores the wrapped code
unmodified, so the code is recoverable from the wrapper and two wrappers
are equal exactly when the wrapped codes are. -/
theorem ink_lang_error_wraps_exactly (c c' : LangError) :
    (InkLangError.ofLangError c).val = c ∧
    (InkLangError.ofLangError c = InkLangError.ofLangError c' ↔ c = c') :=
  ⟨rfl, ⟨fun h => congrArg InkLangError.val h, fun h => by rw [h]⟩⟩

/-- Claim C7: the Display rendering of the dispatch-error wrapper is a
deterministic function of the wrapped code alone: equal codes render to
identical strings, and rendering the same value twice yields the same
string. -/
theorem ink_lang_error_display_deterministic (e e' : InkLangError)
    (h : e.val = e'.val) :
    e.display = e'.display ∧ e.display = e.display :=
  ⟨by simp [InkLangError.display, h], rfl⟩

/-- Claim C7 witness: two wrapper values built differently around the
same code render identically. -/
theorem ink_lang_error_display_deterministic_witness :
    (InkLangError.ofLangError LangError.couldNotReadInput).val =
      (InkLangError.mk LangError.couldNotReadInput).val ∧
    ((InkLangError.ofLangError LangError.couldNotReadInput).display =
      (InkLangError.mk LangError.couldNotReadInput).display ∧
     (InkLangError.ofLangError LangError.couldNotReadInput).display =
      (InkLangError.ofLangError LangError.couldNotReadInput).display) :=
  ⟨rfl, ink_lang_error_display_deterministic _ _ rfl⟩

/-- Claim C8: SCALE round trip for the dispatch-error wrapper: encoding
any value and decoding the resulting bytes succeeds with the original
value and no leftover input. -/
theorem ink_lang_error_roundtrip (e : InkLangError) :
    InkLangError.decode (InkLangError.encode e) = Except.ok (e, []) := by
  obtain ⟨v⟩ := e
  cases v
  rfl

/-- Claim C9: with_salt is last-write-wins: a later with_salt fully
replaces a previously set salt and leaves code hash and data unchanged. -/
theorem with_salt_last_write_wins (T : Type) (h d s1 s2 : List Nat) :
    ((InstantiateCall.new T h d).with_salt s1).with_salt s2 =
      (InstantiateCall.new T h d).with_salt s2 :=
  rfl

/-- Claim C10: for_contract never modifies the collection: the receiver
left behind by a run is the collection itself, its event list is
untouched, and a run after an interleaved run for a different source
returns the same result. -/
theorem for_contract_frame {Event : Type} (E : ContractEvents)
    (C C' : EventSource Event) :
    (E.for_contract_run C).2 = E ∧
    (E.for_contract_run C).2.events = E.events ∧
    (E.for_contract_run C).1 =
      ((E.for_contract_run C').2.for_contract_run C).1 :=
  ⟨rfl, rfl, rfl⟩

end InkWrapper
